import Mathlib

/-!
Verification of the site-tutor extension core against its specification.

The development shallowly embeds the TypeScript sources:
  - `src/site-tutor-extension/src/utils/domSanitizer.ts` (DOM sanitizer),
  - the action verifier (`ActionVerifier` class),
  - the tutorial controller navigation logic,
  - the chatbot state restore and send handler.

DOM elements are modelled as a tree of nodes carrying the data the
sanitizer inspects (tag name in lower case, ordered attribute list,
hidden flags, computed-style strings, content-editable flag, light
children and shadow children).  JavaScript string operations are
modelled by executable Lean counterparts with the same semantics on
the inputs that occur (`includes` as substring test, `trim`,
`toLowerCase` as a character-wise lower-casing).
-/

/-! ## String helpers mirroring the JavaScript primitives -/

/-- Boolean prefix test on character lists. -/
def charsPrefix : List Char → List Char → Bool
  | [], _ => true
  | _ :: _, [] => false
  | a :: as, b :: bs => a = b && charsPrefix as bs

/-- Boolean infix test on character lists (semantics of JavaScript
`String.prototype.includes`: the empty needle is contained in every
string). -/
def charsInfix : List Char → List Char → Bool
  | needle, [] => charsPrefix needle []
  | needle, c :: rest => charsPrefix needle (c :: rest) || charsInfix needle rest

/-- JavaScript `hay.includes(needle)`. -/
def strContains (hay needle : String) : Bool :=
  charsInfix needle.data hay.data

/-- JavaScript `s.startsWith(p)`. -/
def strStartsWith (s p : String) : Bool :=
  charsPrefix p.data s.data

/-- JavaScript `s.trim()`: strip leading and trailing whitespace. -/
def strTrim (s : String) : String :=
  ⟨((s.data.dropWhile Char.isWhitespace).reverse.dropWhile Char.isWhitespace).reverse⟩

/-- JavaScript `s.toLowerCase()` (agrees with `Char.toLower` per
character on the ASCII inputs this code handles). -/
def strToLower (s : String) : String :=
  ⟨s.data.map Char.toLower⟩

/-- One pass of JavaScript `replace(/\s+/g, ' ')`: every maximal run of
whitespace characters becomes a single space.  The boolean flag records
whether the previous character was whitespace. -/
def collapseWsAux : Bool → List Char → List Char
  | _, [] => []
  | prevWs, c :: rest =>
    if c.isWhitespace then
      if prevWs then collapseWsAux true rest
      else ' ' :: collapseWsAux true rest
    else c :: collapseWsAux false rest

/-- JavaScript `s.replace(/\s+/g, ' ')`. -/
def collapseWs (s : String) : String :=
  ⟨collapseWsAux false s.data⟩

/-! ## DOM model

An element carries exactly the data `domSanitizer.ts` reads from a live
element: `tagName.toLowerCase()`, the ordered attribute list
(`el.attributes`), the `hidden` flag, the computed style strings the
hidden test looks at, and `isContentEditable`.  Children mix text nodes
(which only contribute to `textContent`) and element nodes; shadow
children model the children of `el.shadowRoot`. -/

structure ElemData where
  tag : String
  attrs : List (String × String)
  hiddenFlag : Bool
  display : String
  visibility : String
  opacity : String
  height : String
  width : String
  contentEditable : Bool
deriving Repr, DecidableEq

inductive DomNode where
  | text (s : String) : DomNode
  | elem (data : ElemData) (children : List DomNode) (shadow : List DomNode) : DomNode
deriving Repr

/-- JavaScript `el.getAttribute(name)`: the first attribute with the
given name, or `none` when absent. -/
def getAttr (d : ElemData) (name : String) : Option String :=
  (d.attrs.find? (fun p => p.1 = name)).map (fun p => p.2)

/-- Truthiness of `el.getAttribute(name)`: present and non-empty. -/
def attrTruthy (d : ElemData) (name : String) : Bool :=
  match getAttr d name with
  | some s => !s.isEmpty
  | none => false

mutual

/-- DOM `textContent`: concatenation of all text descendants in tree
order (shadow content is not part of `textContent`). -/
def textContent : DomNode → String
  | .text s => s
  | .elem _ cs _ => textContentList cs

def textContentList : List DomNode → String
  | [] => ""
  | n :: rest => textContent n ++ textContentList rest

end

/-! ## domSanitizer.ts -/

/-- IGNORED_TAGS from domSanitizer.ts. -/
def ignoredTags : List String :=
  ["script", "style", "meta", "link", "noscript", "template"]

/-- SEMANTIC_TAGS from domSanitizer.ts. -/
def semanticTags : List String :=
  ["header", "footer", "nav", "main", "section", "article", "aside", "form",
   "label", "fieldset", "legend", "table", "thead", "tbody", "tr", "th", "td",
   "ol", "ul", "li", "details", "summary", "figure", "figcaption", "dialog",
   "h1", "h2", "h3", "h4", "h5", "h6"]

/-- attributeAllowList from domSanitizer.ts. -/
def attributeAllowList : List String :=
  ["id", "role", "href", "name", "type", "aria-label", "aria-describedby",
   "aria-controls", "placeholder", "title", "for", "value"]

/-- isElementHidden from domSanitizer.ts (all modelled elements are
HTMLElements in a browser context, so the instance and style guards of
the source are satisfied). -/
def isElementHidden (d : ElemData) : Bool :=
  if d.hiddenFlag then true
  else if getAttr d "aria-hidden" = some "true" then true
  else
    d.display = "none" || d.visibility = "hidden" || d.opacity = "0" ||
      d.height = "0px" || d.width = "0px"

/-- isInteractiveElement from domSanitizer.ts. -/
def isInteractiveElement (d : ElemData) : Bool :=
  let interactiveTags : List String :=
    ["button", "a", "input", "select", "textarea", "summary", "details"]
  if interactiveTags.contains d.tag then true
  else if d.contentEditable then true
  else if (match getAttr d "role" with
           | some r => strContains r "button"
           | none => false) then true
  else if d.tag = "div" || d.tag = "span" then
    match getAttr d "role" with
    | some r =>
        !r.isEmpty &&
          (["button", "link", "checkbox", "tab", "switch"].contains r)
    | none => false
  else false

/-- isSemanticElement from domSanitizer.ts. -/
def isSemanticElement (d : ElemData) : Bool :=
  if semanticTags.contains d.tag then true
  else if d.tag = "input" then true
  else if attrTruthy d "role" then true
  else if attrTruthy d "aria-label" then true
  else false

/-- hasStableIdentifier from domSanitizer.ts (`el.id` is the empty
string when the attribute is absent, so its truthiness is the
truthiness of the `id` attribute). -/
def hasStableIdentifier (d : ElemData) : Bool :=
  if attrTruthy d "id" then true
  else if attrTruthy d "role" then true
  else if attrTruthy d "aria-label" then true
  else if d.attrs.any (fun p => strStartsWith p.1 "data-") then true
  else if attrTruthy d "name" then true
  else false

/-- redactSensitiveValue from domSanitizer.ts.  The source compares
`el.tagName` with the upper-case names INPUT and TEXTAREA; tags are
stored lower case here, so the comparison uses the lower-case names. -/
def redactSensitiveValue (tag attrName attrValue : String) : String :=
  if (tag = "input" || tag = "textarea") && attrName = "value" then
    if !(strTrim attrValue).isEmpty then "[REDACTED]" else attrValue
  else attrValue

/-- Assignment `attrs[name] = value` on a JavaScript object modelled as
an ordered association list: an existing key is overwritten in place,
a new key is appended. -/
def recordSet (m : List (String × String)) (k v : String) : List (String × String) :=
  match m with
  | [] => [(k, v)]
  | (k', v') :: rest =>
    if k' = k then (k, v) :: rest else (k', v') :: recordSet rest k v

/-- Record lookup (reading `attrs[name]`). -/
def recordGet : List (String × String) → String → Option String
  | [], _ => none
  | (k', v') :: rest, k => if k' = k then some v' else recordGet rest k

/-- The dataset key for an attribute name `data-x-y`: the part after
`data-` with `-c` sequences camel-cased. -/
def kebabToCamelAux : List Char → List Char
  | [] => []
  | '-' :: c :: rest => c.toUpper :: kebabToCamelAux rest
  | c :: rest => c :: kebabToCamelAux rest

def kebabToCamel (s : String) : String :=
  ⟨kebabToCamelAux s.data⟩

/-- extractAttributes from domSanitizer.ts: first the pass over
`el.attributes` keeping `data-*` attributes and the allow list (values
run through redactSensitiveValue), then the pass over `el.dataset`
re-adding every `data-*` attribute under its camel-cased dataset key. -/
def extractAttributes (d : ElemData) : List (String × String) :=
  let base := d.attrs.foldl
    (fun acc p =>
      if strStartsWith p.1 "data-" || attributeAllowList.contains p.1 then
        recordSet acc p.1 (redactSensitiveValue d.tag p.1 p.2)
      else acc) []
  d.attrs.foldl
    (fun acc p =>
      if strStartsWith p.1 "data-" then
        recordSet acc ("data-" ++ kebabToCamel (p.1.drop 5)) p.2
      else acc) base

/-- shouldKeepElement from domSanitizer.ts (text nodes are never
elements, hence never kept). -/
def shouldKeepElement : DomNode → Bool
  | .text _ => false
  | .elem d cs _ =>
    if ignoredTags.contains d.tag then false
    else if isElementHidden d then false
    else if isInteractiveElement d then true
    else if isSemanticElement d then true
    else if hasStableIdentifier d then true
    else
      let t := strTrim (textContent (.elem d cs []))
      !t.isEmpty && decide (t.length ≤ 140)

/-- The output node shape of domSanitizer.ts.  The optional `children`
field of the source is modelled as a list that is empty exactly when
the field is absent. -/
inductive SimplifiedNode where
  | mk (tag : String) (attributes : List (String × String))
      (text : Option String) (children : List SimplifiedNode) : SimplifiedNode
deriving Repr

def SimplifiedNode.tag : SimplifiedNode → String
  | .mk t _ _ _ => t

def SimplifiedNode.attributes : SimplifiedNode → List (String × String)
  | .mk _ a _ _ => a

def SimplifiedNode.textField : SimplifiedNode → Option String
  | .mk _ _ t _ => t

def SimplifiedNode.children : SimplifiedNode → List SimplifiedNode
  | .mk _ _ _ c => c

/-- The `text` field a kept element receives: its `textContent` with
whitespace collapsed and trimmed, included only when non-empty and at
most 160 characters long. -/
def nodeTextOf (cs : List DomNode) : Option String :=
  let t := strTrim (collapseWs (textContentList cs))
  if !t.isEmpty && decide (t.length ≤ 160) then some t else none

mutual

/-- simplifyElement / getSimplifiedDom from domSanitizer.ts.
`simplifyList` is the loop over `el.children` (text nodes are not
element children and contribute nothing); `getSimplifiedDomList` is
`getSimplifiedDom` applied to the children of a root, which restarts
the depth counter at 0 — exactly what the source does for shadow
roots. -/
def simplifyElement : DomNode → Nat → List SimplifiedNode
  | .text _, _ => []
  | .elem d cs sh, depth =>
    if depth > 50 then []
    else if ignoredTags.contains d.tag then []
    else if isElementHidden d then []
    else
      let children := simplifyList cs (depth + 1) ++ getSimplifiedDomList sh
      if shouldKeepElement (.elem d cs sh) then
        [SimplifiedNode.mk d.tag (extractAttributes d) (nodeTextOf cs) children]
      else children

def simplifyList : List DomNode → Nat → List SimplifiedNode
  | [], _ => []
  | n :: rest, depth => simplifyElement n depth ++ simplifyList rest depth

def getSimplifiedDomList : List DomNode → List SimplifiedNode
  | [] => []
  | n :: rest => simplifyElement n 0 ++ getSimplifiedDomList rest

end

/-- The retention test exactly as the specification words it: the
element is interactive, semantically tagged, carries a stable
identifier, or its own trimmed text is non-empty and at most 140
characters. -/
def retentionSpec (d : ElemData) (cs : List DomNode) : Bool :=
  isInteractiveElement d || isSemanticElement d || hasStableIdentifier d ||
    (!(strTrim (textContentList cs)).isEmpty &&
      decide ((strTrim (textContentList cs)).length ≤ 140))

/-! ## ActionVerifier: click watch with expectedResult

The click path of `attachClickListener` is modelled as a state machine
driven by an event trace.  State: whether the registered listeners,
periodic interval and overall watch timeout are still installed
(`active`, all three are torn down together by stopWatching), whether a
matching click has been seen (`clickDetected`), how many post-click
300ms delayed checks are scheduled (`pendingChecks` — the source
creates these with a bare setTimeout that is never pushed onto
`cleanupFns`, so they fire even after stopWatching), and counters for
the onMatch and onTimeout callbacks. -/

structure ClickWatch where
  active : Bool
  clickDetected : Bool
  pendingChecks : Nat
  matchCount : Nat
  timeoutCount : Nat
deriving Repr, DecidableEq

/-- The state right after watchStep installs the click listener. -/
def ClickWatch.start : ClickWatch :=
  { active := true, clickDetected := false, pendingChecks := 0,
    matchCount := 0, timeoutCount := 0 }

/-- handleMatch in watchStep: stopWatching (tearing down listeners,
interval and watch timeout) followed by options.onMatch(). -/
def handleMatch (s : ClickWatch) : ClickWatch :=
  { s with active := false, matchCount := s.matchCount + 1 }

/-- Events a click watch can receive: a document click (with the
outcome of the selector match against the target), the firing of a
scheduled 300ms post-click check, the firing of the 500ms periodic
interval, and the firing of the overall watch timeout.  Each check
event carries whether verifyExpectedResult succeeds at that moment. -/
inductive ClickEvent where
  | click (selMatches : Bool)
  | delayedCheck (erHolds : Bool)
  | intervalTick (erHolds : Bool)
  | watchTimeout
deriving Repr, DecidableEq

/-- One event of the click watch, for a step carrying an
expectedResult iff `hasER`.  A delayedCheck consumes one scheduled
post-click timeout; since those timeouts are not registered in
`cleanupFns`, they run regardless of `active`. -/
def clickStep (hasER : Bool) (s : ClickWatch) : ClickEvent → ClickWatch
  | .click m =>
    if !s.active then s
    else if !m then s
    else if hasER then
      { s with clickDetected := true, pendingChecks := s.pendingChecks + 1 }
    else handleMatch s
  | .delayedCheck er =>
    if s.pendingChecks = 0 then s
    else
      let s1 := { s with pendingChecks := s.pendingChecks - 1 }
      if er then handleMatch s1 else s1
  | .intervalTick er =>
    if !s.active || !hasER then s
    else if s.clickDetected && er then handleMatch s else s
  | .watchTimeout =>
    if !s.active then s
    else { s with active := false, timeoutCount := s.timeoutCount + 1 }

/-- Run a click watch from its start state over an event trace. -/
def clickRun (hasER : Bool) (events : List ClickEvent) : ClickWatch :=
  events.foldl (clickStep hasER) ClickWatch.start

/-! ## ActionVerifier: input listener -/

/-- The data the input/change listener reads from an event: whether
elementMatchesSelector accepts the target, whether the target is
identical to the fallback-resolved element, whether the target is an
HTMLInputElement or HTMLTextAreaElement, and its current value. -/
structure InputEventData where
  targetMatchesSelector : Bool
  targetIsFallback : Bool
  isTextControl : Bool
  value : String
deriving Repr, DecidableEq

/-- The listener body of attachInputListener: true exactly when the
match handler is invoked for the event.  `fallbackFound` records
whether findElementWithFallback resolved an element at install time. -/
def inputListenerFires (fallbackFound : Bool) (expectedResult : Option String)
    (ev : InputEventData) : Bool :=
  let sel := ev.targetMatchesSelector || (fallbackFound && ev.targetIsFallback)
  if !sel then false
  else if ev.isTextControl then
    if (strTrim ev.value).length = 0 then false
    else
      match expectedResult with
      | some er =>
        strContains (strToLower ev.value) (strToLower er) ||
          strContains (strToLower er) (strToLower ev.value)
      | none => true
  else true

/-! ## ActionVerifier: query sites and error handling

The throwing DOM primitives are modelled as `Except` values: an
`Except.error` is a thrown selector-syntax error, an `Except.ok` the
normal result.  Each query site returns a total Bool, showing that no
exception propagates to the caller. -/

/-- elementMatchesSelector: `none` is a null element; otherwise the
pair holds the outcomes of `element.matches(selector)` and
`element.closest(selector)` (ok true = some ancestor matched).  Both
calls sit in one try block: a throw from either yields false. -/
def elementMatchesSelector
    (element : Option (Except String Bool × Except String Bool)) : Bool :=
  match element with
  | none => false
  | some (matchesRes, closestRes) =>
    match matchesRes with
    | .ok true => true
    | .ok false =>
      match closestRes with
      | .ok b => b
      | .error _ => false
    | .error _ => false

/-- checkExpectedElementAppears: querySelectorAll wrapped in
try/catch; a throw yields false, otherwise the match count decides. -/
def checkExpectedElementAppears (queryRes : Except String Nat) : Bool :=
  match queryRes with
  | .ok n => decide (n > 0)
  | .error _ => false

/-- urlMatchesPattern: exact equality, then substring containment,
then case-insensitive path containment (`currentPath` is the pathname
of the current URL), then a regex test whose construction may throw —
only the regex construction sits in a try/catch. -/
def urlMatchesPattern (currentUrl pattern currentPath : String)
    (regexRes : Except String Bool) : Bool :=
  if currentUrl = pattern then true
  else if strContains currentUrl pattern then true
  else if strContains (strToLower currentPath) (strToLower pattern) then true
  else
    match regexRes with
    | .ok b => b
    | .error _ => false

/-! ## ActionVerifier: watch lifecycle and cleanup bookkeeping

The listeners, the overall timeout and the polling interval a watch
installs are modelled as numeric resource ids.  The world holds the
ids currently installed in the browser plus a counter supplying fresh
ids.  The verifier fields mirror the class: `timeoutId`, `intervalId`
and `cleanupIds` (the resource each registered cleanup function
removes; the input listener registers one function removing two
listeners, modelled as two entries).  The 300ms post-click check
timers created inside the click listener are NOT registered anywhere
on the instance: in the world they are ids outside `registeredIds`,
which stopWatching therefore leaves installed; their behaviour across
two watches is modelled below by `twoWatchStep`. -/

inductive ActionType where
  | click
  | input
  | wait
  | navigate
deriving Repr, DecidableEq

structure VerifierState where
  timeoutId : Option Nat
  intervalId : Option Nat
  cleanupIds : List Nat
deriving Repr, DecidableEq

structure BrowserWorld where
  nextId : Nat
  installed : List Nat
deriving Repr, DecidableEq

/-- All resource ids registered for the current watch. -/
def registeredIds (v : VerifierState) : List Nat :=
  v.timeoutId.toList ++ v.intervalId.toList ++ v.cleanupIds

/-- stopWatching: clear the timeout and the interval, run every
registered cleanup function (removing its listeners or timers from the
browser) and reset the bookkeeping. -/
def stopWatching (v : VerifierState) (w : BrowserWorld) :
    VerifierState × BrowserWorld :=
  ({ timeoutId := none, intervalId := none, cleanupIds := [] },
    { w with installed := w.installed.filter (fun r => decide (r ∉ registeredIds v)) })

/-- How many cleanup-registered resources each action type installs:
click adds a document click listener plus, when an expectedResult is
present, a periodic check interval; input adds input and change
listeners; navigate adds popstate, hashchange and synthetic-navigation
listeners; wait adds its auto-complete timer. -/
def watchResourceCount : ActionType → Bool → Nat
  | .click, hasER => if hasER then 2 else 1
  | .input, _ => 2
  | .navigate, _ => 3
  | .wait, _ => 1

/-- watchStep: stopWatching first, then install the overall timeout
(when timeoutMs is positive), the per-action listeners/timers with
their cleanup registrations, and for navigate the polling interval
stored in intervalId.  A bare post-click check timer created by a
previous watch is an installed id outside the old registeredIds, so
neither the stopWatching call here nor the fresh installs touch it. -/
def watchStep (a : ActionType) (hasER : Bool) (timeoutMs : Nat)
    (v : VerifierState) (w : BrowserWorld) : VerifierState × BrowserWorld :=
  let w0 := (stopWatching v w).2
  let tcount := if timeoutMs > 0 then 1 else 0
  let tid := if timeoutMs > 0 then some w0.nextId else none
  let n := watchResourceCount a hasER
  let cids := (List.range n).map (fun i => w0.nextId + tcount + i)
  let icount := if a = ActionType.navigate then 1 else 0
  let iid := if a = ActionType.navigate then some (w0.nextId + tcount + n) else none
  let newIds := (List.range (tcount + n + icount)).map (fun i => w0.nextId + i)
  ({ timeoutId := tid, intervalId := iid, cleanupIds := cids },
    { nextId := w0.nextId + tcount + n + icount, installed := w0.installed ++ newIds })

/-! ## ActionVerifier: two consecutive watches on one instance

Watch 1 is a click step with an expectedResult; watch 2 is any step
installed later through watchStep on the same ActionVerifier.  The
handler closed over by watch 1 (`handleMatch`) calls
`this.stopWatching()` followed by the watch 1 onMatch callback, and a
stale post-click timer keeps that handler alive past the watch switch:
when it fires, `this.stopWatching()` tears down whatever is currently
registered — the resources of watch 2. -/

structure TwoWatchState where
  watchingStep2 : Bool
  active : Bool
  clickDetected1 : Bool
  pendingChecks1 : Nat
  match1 : Nat
  match2 : Nat
deriving Repr, DecidableEq

/-- Watch 1 freshly installed. -/
def TwoWatchState.start : TwoWatchState :=
  { watchingStep2 := false, active := true, clickDetected1 := false,
    pendingChecks1 := 0, match1 := 0, match2 := 0 }

/-- Events across the two watches: a document click handled by watch 1
(its listener is installed only while watch 1 is the current watch and
not stopped), the watchStep call installing watch 2, and the firing of
one of watch 1's bare 300ms post-click timers, which runs no matter
which watch is current. -/
inductive TwoWatchEvent where
  | click1 (selMatches : Bool)
  | installWatch2
  | staleCheck1 (erHolds : Bool)
deriving Repr, DecidableEq

/-- One event.  `active` stands for the registered resources of the
CURRENT watch being installed; installWatch2 is stopWatching (which
cannot clear the bare timers, so pendingChecks1 is untouched) followed
by the installation of watch 2; a firing stale check whose
expectedResult test succeeds runs watch 1's handleMatch:
this.stopWatching() — tearing down the current watch's resources —
then the watch 1 onMatch. -/
def twoWatchStep (s : TwoWatchState) : TwoWatchEvent → TwoWatchState
  | .click1 m =>
    if !s.active || s.watchingStep2 then s
    else if !m then s
    else { s with clickDetected1 := true, pendingChecks1 := s.pendingChecks1 + 1 }
  | .installWatch2 =>
    { s with watchingStep2 := true, active := true }
  | .staleCheck1 er =>
    if s.pendingChecks1 = 0 then s
    else
      let s1 := { s with pendingChecks1 := s.pendingChecks1 - 1 }
      if er then { s1 with active := false, match1 := s1.match1 + 1 }
      else s1

/-- Run the two-watch scenario from the start of watch 1. -/
def twoWatchRun (events : List TwoWatchEvent) : TwoWatchState :=
  events.foldl twoWatchStep TwoWatchState.start

/-! ## Tutorial data model (types/tutorial.ts) -/

structure TutorialStep where
  stepNumber : Nat
  selector : String
  instruction : String
  actionType : ActionType
  expectedResult : Option String
  hint : Option String
deriving Repr, DecidableEq

structure TutorialPayload where
  title : String
  steps : List TutorialStep
deriving Repr, DecidableEq

/-! ## TutorialController navigation -/

inductive CtrlStatus where
  | waiting
  | matched
  | timeout
deriving Repr, DecidableEq

/-- The controller state the navigation callbacks manipulate:
`autoAdvancePending` records a scheduled auto-advance timer,
`completions` counts onComplete invocations. -/
structure CtrlState where
  currentStepIndex : Nat
  status : CtrlStatus
  hint : Option String
  autoAdvancePending : Bool
  completions : Nat
deriving Repr, DecidableEq

def AUTO_ADVANCE_DELAY : Nat := 900

/-- goToNextStep: clear any pending auto-advance, reset hint and
status, then advance clamped to the last index; when already at the
last index (so the index does not move), invoke onComplete. -/
def goToNextStep (totalSteps : Nat) (s : CtrlState) : CtrlState :=
  let nextIndex := min (s.currentStepIndex + 1) (totalSteps - 1)
  { currentStepIndex := nextIndex
    status := .waiting
    hint := none
    autoAdvancePending := false
    completions :=
      if nextIndex = s.currentStepIndex ∧ s.currentStepIndex = totalSteps - 1 then
        s.completions + 1
      else s.completions }

/-- goToPreviousStep: clear any pending auto-advance, reset hint and
status, retreat clamped at 0 (truncated subtraction). -/
def goToPreviousStep (s : CtrlState) : CtrlState :=
  { s with
    currentStepIndex := s.currentStepIndex - 1
    status := .waiting
    hint := none
    autoAdvancePending := false }

/-- The onMatch callback installed by startWatchingStep: set status
matched, clear any previous auto-advance timer and schedule
goToNextStep after AUTO_ADVANCE_DELAY milliseconds. -/
def ctrlOnMatch (s : CtrlState) : CtrlState :=
  { s with
    status := .matched
    autoAdvancePending := true }

/-- Firing of the scheduled auto-advance timer. -/
def fireAutoAdvance (totalSteps : Nat) (s : CtrlState) : CtrlState :=
  if s.autoAdvancePending then goToNextStep totalSteps s else s

/-! ## Chatbot: state restore (part of the Chatbot component) -/

/-- The component state the restore effect writes. -/
structure ChatState where
  tutorial : Option TutorialPayload
  currentTutorialStep : Nat
  isOpen : Bool
deriving Repr, DecidableEq

/-- The StoredState JSON from extension storage; optional fields model
absent JSON keys. -/
structure StoredState where
  tutorial : Option TutorialPayload
  currentTutorialStep : Option Nat
  isOpen : Option Bool
  origin : Option String
deriving Repr, DecidableEq

/-- JavaScript truthiness of `!stored.origin`: the origin is absent or
the empty string. -/
def originFalsy : Option String → Bool
  | none => true
  | some o => o.isEmpty

/-- The body of the chrome.storage.local.get restore callback for a
present stored entry: apply the stored tutorial, step index and isOpen
flag when the origin is falsy or equals the current origin; otherwise
remove the stored entry (second component true) and change nothing.
The function is total: no error is raised on a mismatch. -/
def restoreState (stored : Option StoredState) (currentOrigin : String)
    (s : ChatState) : ChatState × Bool :=
  match stored with
  | none => (s, false)
  | some st =>
    if originFalsy st.origin || (st.origin == some currentOrigin) then
      ({ tutorial := st.tutorial
         currentTutorialStep :=
           if st.tutorial.isSome then st.currentTutorialStep.getD 0 else 0
         isOpen := st.isOpen.getD s.isOpen }, false)
    else (s, true)

/-! ## Chatbot: the create-repo shortcut in handleSend -/

/-- The hardcoded pattern list of isCreateRepoRequest. -/
def createRepoPatterns : List String :=
  ["create a new repo", "create new repo", "create a repo", "create repo",
   "make a new repo", "make new repo", "new repository", "create repository",
   "create a new repository", "create new repository"]

/-- isCreateRepoRequest: the lowercased trimmed message contains one of
the hardcoded phrases. -/
def isCreateRepoRequest (message : String) : Bool :=
  let normalized := strTrim (strToLower message)
  createRepoPatterns.any (fun pattern => strContains normalized pattern)

/-- EXAMPLE_CREATE_REPO_TUTORIAL: the hardcoded five-step tutorial. -/
def EXAMPLE_CREATE_REPO_TUTORIAL : TutorialPayload :=
  { title := "Create a New GitHub Repository"
    steps := [
      { stepNumber := 1
        selector := "a[href=\"/new\"]"
        instruction := "Click the \"New\" button or repository creation link in the top right corner of GitHub."
        actionType := .click
        expectedResult := some "repository creation form"
        hint := some "Look for a green button with a plus icon or a \"New\" link in the header navigation." },
      { stepNumber := 2
        selector := "input[name=\"repository[name]\"]"
        instruction := "Enter a name for your repository in the \"Repository name\" field."
        actionType := .input
        expectedResult := some "repository name"
        hint := some "The field is usually at the top of the form. Use a descriptive name like \"my-project\"." },
      { stepNumber := 3
        selector := "input[name=\"repository[description]\"]"
        instruction := "(Optional) Add a description for your repository."
        actionType := .input
        expectedResult := some "description"
        hint := some "This step is optional - you can skip it and click Next if you prefer." },
      { stepNumber := 4
        selector := "input[name=\"repository[visibility]\"][value=\"public\"]"
        instruction := "Choose the visibility: Public (anyone can see) or Private (only you)."
        actionType := .click
        expectedResult := some "visibility"
        hint := some "Public repositories are free and visible to everyone. Private repositories require a paid plan." },
      { stepNumber := 5
        selector := "button[type=\"submit\"]"
        instruction := "Click the \"Create repository\" button at the bottom of the form."
        actionType := .click
        expectedResult := some "/new"
        hint := some "The button is usually green and located at the bottom of the form." }
    ] }

/-- The observable outcome of handleSend for one message:
`backendRequest` is the network path (screenshot capture, sanitized DOM
extraction and the fetch to the backend); `localTutorial` installs a
tutorial locally and returns before any of those; `noop` is the early
return on a blank message. -/
inductive SendOutcome where
  | noop
  | localTutorial (tutorial : TutorialPayload) (stepIndex : Nat)
  | backendRequest (message : String)
deriving Repr, DecidableEq

/-- The decision structure of handleSend: blank messages are ignored;
a create-repo request installs EXAMPLE_CREATE_REPO_TUTORIAL at step 0
and returns; every other message takes the network path. -/
def handleSendOutcome (input : String) : SendOutcome :=
  if (strTrim input).isEmpty then .noop
  else if isCreateRepoRequest input then
    .localTutorial EXAMPLE_CREATE_REPO_TUTORIAL 0
  else .backendRequest input

/-! ## Concrete elements used as witnesses -/

/-- A visible wrapper div with no attributes. -/
def wrapperDivData : ElemData :=
  { tag := "div", attrs := [], hiddenFlag := false, display := "block",
    visibility := "visible", opacity := "1", height := "40px", width := "200px",
    contentEditable := false }

/-- A visible input field carrying only a name attribute. -/
def namedInputData : ElemData :=
  { tag := "input", attrs := [("name", "q")], hiddenFlag := false,
    display := "block", visibility := "visible", opacity := "1",
    height := "20px", width := "100px", contentEditable := false }

/-- A visible input whose value attribute is whitespace only. -/
def blankValueInput : ElemData :=
  { tag := "input", attrs := [("id", "field1"), ("value", " ")], hiddenFlag := false,
    display := "block", visibility := "visible", opacity := "1",
    height := "20px", width := "100px", contentEditable := false }

/-- A visible input whose value attribute is a secret string. -/
def secretValueInput : ElemData :=
  { tag := "input", attrs := [("id", "repo"), ("value", "secret123")], hiddenFlag := false,
    display := "block", visibility := "visible", opacity := "1",
    height := "20px", width := "100px", contentEditable := false }

/-- A controller state on the last step of a two-step tutorial. -/
def ctrlDemoState : CtrlState :=
  { currentStepIndex := 1, status := .waiting, hint := none,
    autoAdvancePending := false, completions := 0 }

/-- An empty chatbot component state. -/
def emptyChatState : ChatState :=
  { tutorial := none, currentTutorialStep := 0, isOpen := false }

/-- A stored state whose origin differs from the current page. -/
def mismatchStored : StoredState :=
  { tutorial := none, currentTutorialStep := some 3, isOpen := some true,
    origin := some "https://example.com" }

/-! ## Theorems -/

/-- C1: a visited element (not excluded-tag and not hidden) appears as
its own SimplifiedNode iff it passes the retention test (interactive,
semantically tagged, stable identifier, or trimmed text non-empty and
at most 140 characters); otherwise its simplified children are returned
in its place. -/
theorem sanitizer_retention_iff (d : ElemData) (cs sh : List DomNode) (depth : Nat)
    (hdepth : depth ≤ 50)
    (hignored : ignoredTags.contains d.tag = false)
    (hhidden : isElementHidden d = false) :
    (retentionSpec d cs = true →
      simplifyElement (.elem d cs sh) depth =
        [SimplifiedNode.mk d.tag (extractAttributes d) (nodeTextOf cs)
          (simplifyList cs (depth + 1) ++ getSimplifiedDomList sh)]) ∧
    (retentionSpec d cs = false →
      simplifyElement (.elem d cs sh) depth =
        simplifyList cs (depth + 1) ++ getSimplifiedDomList sh) := by
  have hkeep : shouldKeepElement (.elem d cs sh) = retentionSpec d cs := by
    unfold shouldKeepElement retentionSpec
    simp only [textContent, hignored, hhidden]
    cases isInteractiveElement d <;> cases isSemanticElement d <;>
      cases hasStableIdentifier d <;> simp
  have hnd : ¬ depth > 50 := by omega
  constructor <;> intro hret <;>
    simp only [simplifyElement, hnd, hignored, hhidden, hkeep, hret,
      if_false, if_true, Bool.false_eq_true, Bool.true_eq_false, ite_false, ite_true]

theorem sanitizer_retention_iff_witness :
    ((0 : Nat) ≤ 50 ∧ ignoredTags.contains wrapperDivData.tag = false ∧
      isElementHidden wrapperDivData = false ∧
      retentionSpec wrapperDivData [.elem namedInputData [] []] = false) ∧
    simplifyElement (.elem wrapperDivData [.elem namedInputData [] []] []) 0 =
      simplifyList [.elem namedInputData [] []] 1 ++ getSimplifiedDomList [] :=
  ⟨⟨by decide, by decide, by decide, by decide⟩,
    (sanitizer_retention_iff wrapperDivData [.elem namedInputData [] []] [] 0
      (by decide) (by decide) (by decide)).2 (by decide)⟩

/-- C9: the recursive traversal returns no nodes for any element whose
recursion depth exceeds 50; such an element contributes an empty
result, neither itself nor any descendant. -/
theorem simplify_depth_guard (n : DomNode) (depth : Nat) (h : 50 < depth) :
    simplifyElement n depth = [] := by
  cases n with
  | text s => simp [simplifyElement]
  | elem d cs sh => simp only [simplifyElement, if_pos h]

theorem simplify_depth_guard_witness :
    50 < 51 ∧ simplifyElement (.elem wrapperDivData [] []) 51 = [] :=
  ⟨by decide, simplify_depth_guard (.elem wrapperDivData [] []) 51 (by decide)⟩

/-! ## Record lemmas for the redaction proof -/

theorem recordGet_recordSet_same (m : List (String × String)) (k v : String) :
    recordGet (recordSet m k v) k = some v := by
  induction m with
  | nil => simp [recordSet, recordGet]
  | cons p rest ih =>
    obtain ⟨k', v'⟩ := p
    by_cases h : k' = k
    · subst h; simp [recordSet, recordGet]
    · simp [recordSet, recordGet, h, ih]

theorem recordGet_recordSet_other (m : List (String × String)) (k' k v : String)
    (h : k' ≠ k) : recordGet (recordSet m k' v) k = recordGet m k := by
  have h2 : k ≠ k' := Ne.symm h
  induction m with
  | nil => simp [recordSet, recordGet, h]
  | cons p rest ih =>
    obtain ⟨k₀, v₀⟩ := p
    by_cases h0 : k₀ = k'
    · subst h0; simp [recordSet, recordGet, h, h2]
    · by_cases h1 : k₀ = k <;> simp [recordSet, recordGet, h0, h1, h, h2, ih]

/-- A dataset key never collides with the `value` key. -/
theorem dataKey_ne_value (t : String) : ("data-" ++ t) ≠ "value" := by
  intro h
  have h2 := congrArg String.data h
  simp [String.data_append] at h2

/-- The second pass of extractAttributes (the dataset pass) only writes
`data-` keys, so the binding of `value` is unchanged by it. -/
theorem datasetPass_preserves_value (l : List (String × String))
    (acc : List (String × String)) :
    recordGet
      (l.foldl (fun acc p =>
        if strStartsWith p.1 "data-" then
          recordSet acc ("data-" ++ kebabToCamel (p.1.drop 5)) p.2
        else acc) acc) "value" = recordGet acc "value" := by
  induction l generalizing acc with
  | nil => rfl
  | cons p rest ih =>
    obtain ⟨k, w⟩ := p
    by_cases h : strStartsWith k "data-" = true
    · simp only [List.foldl_cons, h, if_true]
      rw [ih, recordGet_recordSet_other _ _ _ _ (dataKey_ne_value _)]
    · simp only [List.foldl_cons, h, if_false, Bool.false_eq_true]
      exact ih acc

/-- The first pass of extractAttributes leaves the `value` binding
unchanged when no processed attribute is named `value`. -/
theorem allowPass_preserves_value (tag : String) (l : List (String × String))
    (acc : List (String × String)) (hl : ∀ p ∈ l, p.1 ≠ "value") :
    recordGet
      (l.foldl (fun acc p =>
        if strStartsWith p.1 "data-" || attributeAllowList.contains p.1 then
          recordSet acc p.1 (redactSensitiveValue tag p.1 p.2)
        else acc) acc) "value" = recordGet acc "value" := by
  induction l generalizing acc with
  | nil => rfl
  | cons p rest ih =>
    obtain ⟨k, w⟩ := p
    have hk : k ≠ "value" := hl (k, w) (List.mem_cons_self _ _)
    have hrest : ∀ p ∈ rest, p.1 ≠ "value" := fun p hp => hl p (List.mem_cons_of_mem _ hp)
    by_cases h : (strStartsWith k "data-" || attributeAllowList.contains k) = true
    · simp only [List.foldl_cons, h, if_true]
      rw [ih _ hrest, recordGet_recordSet_other _ _ _ _ hk]
    · simp only [List.foldl_cons]
      rw [if_neg h, ih _ hrest]

/-- The first pass of extractAttributes stores the redaction token for
a non-blank `value` attribute of an input or textarea element, provided
attribute names are unique (as in any real DOM element). -/
theorem allowPass_redacts_value (tag : String) (l : List (String × String))
    (acc : List (String × String)) (v : String)
    (htag : tag = "input" ∨ tag = "textarea")
    (hnodup : (l.map Prod.fst).Nodup)
    (hv : ("value", v) ∈ l)
    (hne : (strTrim v).isEmpty = false) :
    recordGet
      (l.foldl (fun acc p =>
        if strStartsWith p.1 "data-" || attributeAllowList.contains p.1 then
          recordSet acc p.1 (redactSensitiveValue tag p.1 p.2)
        else acc) acc) "value" = some "[REDACTED]" := by
  induction l generalizing acc with
  | nil => cases hv
  | cons p rest ih =>
    obtain ⟨k, w⟩ := p
    rcases List.mem_cons.mp hv with hhead | htail
    · injection hhead with hk hw
      subst hk
      subst hw
      have hcond : (strStartsWith "value" "data-" || attributeAllowList.contains "value") = true := by
        decide
      have hred : redactSensitiveValue tag "value" v = "[REDACTED]" := by
        rcases htag with h | h <;> subst h <;>
          simp [redactSensitiveValue, hne]
      have hrest : ∀ p ∈ rest, p.1 ≠ "value" := by
        intro q hq hcontra
        simp only [List.map_cons] at hnodup
        have h1 := (List.nodup_cons.mp hnodup).1
        have h2 := List.mem_map_of_mem Prod.fst hq
        rw [hcontra] at h2
        exact h1 h2
      simp only [List.foldl_cons, hcond, if_true, hred]
      rw [allowPass_preserves_value tag rest _ hrest, recordGet_recordSet_same]
    · have hk : k ≠ "value" := by
        intro hcontra
        simp only [List.map_cons] at hnodup
        have h1 := (List.nodup_cons.mp hnodup).1
        have h2 := List.mem_map_of_mem Prod.fst htail
        rw [hcontra] at h1
        exact h1 h2
      have hrest : (rest.map Prod.fst).Nodup := by
        simp only [List.map_cons] at hnodup
        exact (List.nodup_cons.mp hnodup).2
      simp only [List.foldl_cons]
      by_cases h : (strStartsWith k "data-" || attributeAllowList.contains k) = true
      · rw [if_pos h]; exact ih _ hrest htail
      · rw [if_neg h]; exact ih _ hrest htail

/-- C6 (amended): for an input or textarea element whose `value`
attribute is non-blank (non-empty after trimming) and whose attribute
names are distinct (as on any real DOM element), the extracted
SimplifiedNode stores the fixed redaction token `[REDACTED]` as its
`value` attribute and never the original value; this holds for every
such element, with no allow list of safe fields. -/
theorem redaction_nonblank_value (d : ElemData) (cs sh : List DomNode) (depth : Nat)
    (v : String)
    (htag : d.tag = "input" ∨ d.tag = "textarea")
    (hhidden : isElementHidden d = false)
    (hdepth : depth ≤ 50)
    (hnodup : (d.attrs.map Prod.fst).Nodup)
    (hv : ("value", v) ∈ d.attrs)
    (hne : (strTrim v).isEmpty = false) :
    simplifyElement (.elem d cs sh) depth =
      [SimplifiedNode.mk d.tag (extractAttributes d) (nodeTextOf cs)
        (simplifyList cs (depth + 1) ++ getSimplifiedDomList sh)] ∧
    recordGet (extractAttributes d) "value" = some "[REDACTED]" := by
  have hint : isInteractiveElement d = true := by
    rcases htag with h | h <;> simp [isInteractiveElement, h]
  have hig : ignoredTags.contains d.tag = false := by
    rcases htag with h | h <;> simp [ignoredTags, h]
  have hkeep : shouldKeepElement (.elem d cs sh) = true := by
    have hig2 : d.tag ∉ ignoredTags := by
      rcases htag with h | h <;> simp [ignoredTags, h]
    simp [shouldKeepElement, hig, hig2, hhidden, hint]
  have hnd : ¬ depth > 50 := by omega
  refine ⟨?_, ?_⟩
  · simp only [simplifyElement, hnd, hig, hhidden, hkeep, if_true, if_false,
      ite_true, ite_false, Bool.false_eq_true]
  · unfold extractAttributes
    rw [datasetPass_preserves_value]
    exact allowPass_redacts_value d.tag d.attrs [] v htag hnodup hv hne

theorem redaction_nonblank_value_witness :
    ((secretValueInput.tag = "input" ∨ secretValueInput.tag = "textarea") ∧
      isElementHidden secretValueInput = false ∧ (0 : Nat) ≤ 50 ∧
      (secretValueInput.attrs.map Prod.fst).Nodup ∧
      ("value", "secret123") ∈ secretValueInput.attrs ∧
      (strTrim "secret123").isEmpty = false) ∧
    recordGet (extractAttributes secretValueInput) "value" = some "[REDACTED]" :=
  ⟨⟨Or.inl rfl, by decide, by decide, by decide, by decide, by decide⟩,
    (redaction_nonblank_value secretValueInput [] [] 0 "secret123" (Or.inl rfl)
      (by decide) (by decide) (by decide) (by decide) (by decide)).2⟩

/-- C6 counterexample: an input whose value attribute is the non-empty
string consisting of one space is extracted with its original value and
not the redaction token, so redaction applies to values that are
non-blank after trimming, not to every non-empty value. -/
theorem redaction_nonempty_counterexample :
    getAttr blankValueInput "value" = some " " ∧ (" " : String) ≠ "" ∧
    simplifyElement (.elem blankValueInput [] []) 0 =
      [SimplifiedNode.mk "input" [("id", "field1"), ("value", " ")] none []] ∧
    recordGet (extractAttributes blankValueInput) "value" = some " " ∧
    (some " " : Option String) ≠ some "[REDACTED]" :=
  ⟨rfl, by decide, rfl, rfl, by decide⟩

/-- C2: evaluation of the click watch at a failing trace.  A matching
click on a step with an expectedResult does not signal match by itself
(first conjunct), and the interval check signals it once the expected
result holds and stops the watch (second and third conjuncts); but the
300ms post-click timeout is never registered for cleanup, so after the
interval has already matched and stopped the watch it fires again and
invokes onMatch a second time (fourth conjunct).  A real timeline:
interval installed at 0ms, matching click at 250ms while the expected
result already holds, interval tick at 500ms, post-click timeout at
550ms.  The claim that onMatch is signaled exactly once per watch
fails on this trace. -/
theorem click_expected_result_double_match :
    (clickRun true [.click true]).matchCount = 0 ∧
    (clickRun true [.click true, .intervalTick true]).matchCount = 1 ∧
    (clickRun true [.click true, .intervalTick true]).active = false ∧
    (clickRun true [.click true, .intervalTick true, .delayedCheck true]).matchCount = 2 :=
  ⟨rfl, rfl, rfl, rfl⟩

/-- C4: the input/change listener signals match exactly when the event
target matches the selector (directly or as the fallback-resolved
element) and, for text-like controls, the value is non-empty after
trimming and, when an expectedResult is present, value and expected
text are case-insensitive substrings of one another in either
direction; non-text controls match on any qualifying event without
value inspection. -/
theorem input_listener_match_iff (fallbackFound : Bool) (er : Option String)
    (ev : InputEventData) :
    inputListenerFires fallbackFound er ev = true ↔
      ((ev.targetMatchesSelector = true ∨
          (fallbackFound = true ∧ ev.targetIsFallback = true)) ∧
        (ev.isTextControl = true →
          (strTrim ev.value).length ≠ 0 ∧
            ∀ x, er = some x →
              (strContains (strToLower ev.value) (strToLower x) = true ∨
                strContains (strToLower x) (strToLower ev.value) = true))) := by
  unfold inputListenerFires
  cases hm : ev.targetMatchesSelector <;> cases hf : fallbackFound <;>
    cases hfb : ev.targetIsFallback <;> cases ht : ev.isTextControl <;>
      rcases er with _ | x <;>
        by_cases hz : (strTrim ev.value).length = 0 <;>
          simp [hm, hf, hfb, ht, hz]

/-- C7: a selector-syntax error thrown inside any query site is caught
locally: elementMatchesSelector yields false when `matches` throws,
when `closest` throws, and for a null element; the expected-element
presence check yields false when querySelectorAll throws; and an
invalid regex pattern makes urlMatchesPattern behave exactly as if the
regex test had simply not matched.  No exception reaches the caller:
every site is a total Boolean function. -/
theorem query_sites_catch_selector_errors (e1 e2 e3 e4 : String)
    (c : Except String Bool) (u p path : String) :
    elementMatchesSelector (some (.error e1, c)) = false ∧
    elementMatchesSelector (some (.ok false, .error e2)) = false ∧
    elementMatchesSelector none = false ∧
    checkExpectedElementAppears (.error e3) = false ∧
    urlMatchesPattern u p path (.error e4) = urlMatchesPattern u p path (.ok false) := by
  refine ⟨rfl, rfl, rfl, rfl, ?_⟩
  unfold urlMatchesPattern
  split
  · rfl
  · split
    · rfl
    · split
      · rfl
      · rfl

/-! ## Watch lifecycle lemmas -/

theorem filter_not_mem_nil (l : List Nat) :
    l.filter (fun r => decide (r ∉ ([] : List Nat))) = l := by
  induction l with
  | nil => rfl
  | cons x xs ih => simp [List.filter_cons, ih]

theorem stopWatching_removes (v : VerifierState) (w : BrowserWorld) :
    ∀ r ∈ registeredIds v, r ∉ (stopWatching v w).2.installed := by
  intro r hr hmem
  rw [stopWatching] at hmem
  simp only [List.mem_filter, decide_eq_true_eq] at hmem
  exact hmem.2 hr

theorem stopWatching_idem (v : VerifierState) (w : BrowserWorld) :
    stopWatching (stopWatching v w).1 (stopWatching v w).2 = stopWatching v w := by
  unfold stopWatching
  simp only [registeredIds, Option.toList, List.append_nil, List.nil_append]
  rw [filter_not_mem_nil]

/-- C3: evaluation at a failing trace.  The lifecycle part: a bare
300ms post-click check timer is an installed resource outside the
registered ids of the old watch (here id 3, while the old watch
registered ids 0-2), and both stopWatching and a subsequent watchStep
leave it installed — watchStep does not cancel that pending timer.
The behavioral part: watch 1 (click with expectedResult) sees a
matching click, which schedules the bare timer but does not signal;
watchStep installs watch 2 before the timer fires (the user advances
within 300ms of the click) and the pending check survives the switch;
when it then fires while the old expectedResult holds, it runs watch
1's handleMatch: this.stopWatching() tears down the listeners and
timers of the NEW watch (which never signalled anything) and the OLD
watch's onMatch fires after its watch was replaced.  So watchStep
does not cancel the previous watch's pending timers, and two watches
are simultaneously able to signal, contrary to the claim. -/
theorem stale_click_timer_survives_watchStep :
    ((3 : Nat) ∉ registeredIds ⟨some 0, none, [1, 2]⟩ ∧
      3 ∈ (stopWatching ⟨some 0, none, [1, 2]⟩ ⟨4, [0, 1, 2, 3]⟩).2.installed ∧
      3 ∈ (watchStep .click true 20000 ⟨some 0, none, [1, 2]⟩ ⟨4, [0, 1, 2, 3]⟩).2.installed) ∧
    ((twoWatchRun [.click1 true]).pendingChecks1 = 1 ∧
      (twoWatchRun [.click1 true]).match1 = 0) ∧
    ((twoWatchRun [.click1 true, .installWatch2]).pendingChecks1 = 1 ∧
      (twoWatchRun [.click1 true, .installWatch2]).active = true) ∧
    ((twoWatchRun [.click1 true, .installWatch2, .staleCheck1 true]).match1 = 1 ∧
      (twoWatchRun [.click1 true, .installWatch2, .staleCheck1 true]).active = false ∧
      (twoWatchRun [.click1 true, .installWatch2, .staleCheck1 true]).watchingStep2 = true ∧
      (twoWatchRun [.click1 true, .installWatch2, .staleCheck1 true]).match2 = 0) :=
  ⟨⟨by decide, by decide, by decide⟩, ⟨rfl, rfl⟩, ⟨rfl, rfl⟩, rfl, rfl, rfl, rfl⟩

/-- C5: a Verifier match sets status matched and schedules the
auto-advance after the 900ms grace delay; firing it advances to
min(index + 1, N - 1); manual next and previous clamp at the
boundaries; a next (or auto-advance) invoked at the last index invokes
onComplete instead of moving past the end, and a normal forward step
does not. -/
theorem controller_navigation (N : Nat) (s : CtrlState)
    (hN : 1 ≤ N) (hidx : s.currentStepIndex ≤ N - 1) :
    ((ctrlOnMatch s).status = .matched ∧ (ctrlOnMatch s).autoAdvancePending = true ∧
      AUTO_ADVANCE_DELAY = 900) ∧
    ((fireAutoAdvance N (ctrlOnMatch s)).currentStepIndex =
      min (s.currentStepIndex + 1) (N - 1)) ∧
    ((goToNextStep N s).currentStepIndex = min (s.currentStepIndex + 1) (N - 1) ∧
      (goToNextStep N s).currentStepIndex ≤ N - 1) ∧
    ((goToPreviousStep s).currentStepIndex = s.currentStepIndex - 1 ∧
      (goToPreviousStep s).currentStepIndex ≤ N - 1) ∧
    (s.currentStepIndex = N - 1 →
      (goToNextStep N s).completions = s.completions + 1 ∧
      (goToNextStep N s).currentStepIndex = s.currentStepIndex ∧
      (fireAutoAdvance N (ctrlOnMatch s)).completions = s.completions + 1) ∧
    (s.currentStepIndex < N - 1 →
      (goToNextStep N s).completions = s.completions ∧
      (goToNextStep N s).currentStepIndex = s.currentStepIndex + 1) := by
  refine ⟨⟨rfl, rfl, rfl⟩, ?_, ⟨rfl, ?_⟩, ⟨rfl, ?_⟩, ?_, ?_⟩
  · simp [fireAutoAdvance, ctrlOnMatch, goToNextStep]
  · simp [goToNextStep]
  · simp [goToPreviousStep]
    omega
  · intro h
    have hmin : min (s.currentStepIndex + 1) (N - 1) = s.currentStepIndex := by omega
    refine ⟨?_, ?_, ?_⟩
    · simp [goToNextStep, hmin, h]
    · simp [goToNextStep, hmin]
    · simp [fireAutoAdvance, ctrlOnMatch, goToNextStep, hmin, h]
  · intro h
    have hmin : min (s.currentStepIndex + 1) (N - 1) = s.currentStepIndex + 1 := by omega
    constructor
    · simp [goToNextStep, hmin]
    · simp [goToNextStep, hmin]

theorem controller_navigation_witness :
    ((1 : Nat) ≤ 2 ∧ ctrlDemoState.currentStepIndex ≤ 2 - 1 ∧
      ctrlDemoState.currentStepIndex = 2 - 1) ∧
    ((goToNextStep 2 ctrlDemoState).completions = ctrlDemoState.completions + 1 ∧
      (goToNextStep 2 ctrlDemoState).currentStepIndex = ctrlDemoState.currentStepIndex ∧
      (fireAutoAdvance 2 (ctrlOnMatch ctrlDemoState)).completions =
        ctrlDemoState.completions + 1) :=
  ⟨⟨by decide, by decide, by decide⟩,
    (controller_navigation 2 ctrlDemoState (by decide) (by decide)).2.2.2.2.1 (by decide)⟩

/-- C8 (amended): on restore, the stored state is applied only when the
stored origin is falsy (absent or the empty string) or equals the
current origin; a stored state with a present non-empty origin
different from the current origin is removed from storage and no part
of it is applied; restoreState is a total function, so no error is
raised. -/
theorem restore_origin_guard (st : StoredState) (cur : String) (s : ChatState) :
    (∀ o, st.origin = some o → o.isEmpty = false → o ≠ cur →
      restoreState (some st) cur s = (s, true)) ∧
    ((originFalsy st.origin = true ∨ st.origin = some cur) →
      restoreState (some st) cur s =
        ({ tutorial := st.tutorial
           currentTutorialStep :=
             if st.tutorial.isSome then st.currentTutorialStep.getD 0 else 0
           isOpen := st.isOpen.getD s.isOpen }, false)) := by
  constructor
  · intro o ho hne hneq
    have h1 : originFalsy (some o) = false := by simp [originFalsy, hne]
    have h2 : ((some o : Option String) == some cur) = false := by
      simp only [beq_eq_false_iff_ne, ne_eq, Option.some.injEq]
      exact hneq
    simp only [restoreState]
    rw [ho, h1, h2]
    simp
  · intro h
    rcases h with h | h
    · simp only [restoreState]
      simp [h]
    · simp only [restoreState]
      simp [h]

theorem restore_origin_guard_witness :
    (mismatchStored.origin = some "https://example.com" ∧
      "https://example.com".isEmpty = false ∧
      "https://example.com" ≠ "https://github.com") ∧
    restoreState (some mismatchStored) "https://github.com" emptyChatState =
      (emptyChatState, true) :=
  ⟨⟨rfl, by decide, by decide⟩,
    (restore_origin_guard mismatchStored "https://github.com" emptyChatState).1
      "https://example.com" rfl (by decide) (by decide)⟩

/-- C8 counterexample: a stored state whose origin is present, empty
and different from the current origin is nevertheless applied (and not
removed), because the source tests JavaScript truthiness of the origin
rather than its absence; the claim as stated (applied only when the
origin is absent or equal) fails here. -/
theorem restore_empty_origin_counterexample :
    (some "" : Option String) ≠ none ∧
    (some "" : Option String) ≠ some "https://github.com" ∧
    restoreState
        (some { tutorial := some EXAMPLE_CREATE_REPO_TUTORIAL,
                currentTutorialStep := some 2, isOpen := some true,
                origin := some "" })
        "https://github.com" emptyChatState =
      ({ tutorial := some EXAMPLE_CREATE_REPO_TUTORIAL, currentTutorialStep := 2,
         isOpen := true }, false) :=
  ⟨by decide, by decide, rfl⟩

/-- C10: a message whose lowercased trimmed text contains one of the
hardcoded create-repository phrases (such a message is non-blank)
makes handleSend install the built-in five-step tutorial titled
Create a New GitHub Repository at step index 0 locally and return
before the network path: no screenshot capture, DOM extraction or
fetch happens for that message. -/
theorem create_repo_request_local (msg : String)
    (h : isCreateRepoRequest msg = true)
    (hblank : (strTrim msg).isEmpty = false) :
    handleSendOutcome msg = .localTutorial EXAMPLE_CREATE_REPO_TUTORIAL 0 ∧
    EXAMPLE_CREATE_REPO_TUTORIAL.steps.length = 5 ∧
    EXAMPLE_CREATE_REPO_TUTORIAL.title = "Create a New GitHub Repository" ∧
    ∀ m, handleSendOutcome msg ≠ SendOutcome.backendRequest m := by
  have h1 : handleSendOutcome msg = .localTutorial EXAMPLE_CREATE_REPO_TUTORIAL 0 := by
    unfold handleSendOutcome
    simp [hblank, h]
  refine ⟨h1, rfl, rfl, ?_⟩
  intro m
  rw [h1]
  intro hcontra
  cases hcontra

theorem create_repo_request_local_witness :
    (isCreateRepoRequest "Create a new repo please" = true ∧
      (strTrim "Create a new repo please").isEmpty = false) ∧
    handleSendOutcome "Create a new repo please" =
      SendOutcome.localTutorial EXAMPLE_CREATE_REPO_TUTORIAL 0 :=
  ⟨⟨by decide, by decide⟩,
    (create_repo_request_local "Create a new repo please" (by decide) (by decide)).1⟩
